import Mathlib

/-!
Shallow embedding of the obsidian-forest-mini plugin (gemini.ts, settings.ts,
main.ts, LensView.ts).  Strings model JavaScript strings; a thrown JS `Error`
is modelled as `Except.error msg` carrying the error message; `Notice`
emissions, panel renderings and provider calls are collected in explicit
lists so that "no network call" and "exactly these effects" are statable.
-/

deriving instance DecidableEq for Except

namespace ForestMini

/-- JS whitespace test on one character (the characters relevant here; JS
`trim` strips these and further Unicode space characters). -/
def jsIsSpace (c : Char) : Bool :=
  c = ' ' ∨ c = '\t' ∨ c = '\n' ∨ c = '\r'

/-- JS `s.trim()`: strip whitespace from both ends of the string. -/
def jsTrim (s : String) : String :=
  ⟨(((s.data.dropWhile jsIsSpace).reverse.dropWhile jsIsSpace).reverse)⟩

/-- Whether `pat` stands at the start of `s` (character lists). -/
def charsStartWith : List Char → List Char → Bool
  | _, [] => true
  | [], _ :: _ => false
  | c :: cs, d :: ds => c = d && charsStartWith cs ds

/-- Whether `pat` occurs somewhere in `s` (character lists). -/
def charsContain : List Char → List Char → Bool
  | [], pat => pat.isEmpty
  | c :: cs, pat => charsStartWith (c :: cs) pat || charsContain cs pat

/-- JS `s.includes(pat)`: substring occurrence. -/
def jsIncludes (s pat : String) : Bool :=
  charsContain s.data pat.data

/-! ## settings.ts -/

/-- `ForestMiniSettings` interface: the persisted plugin configuration. -/
structure ForestMiniSettings where
  geminiApiKey : String
  mephistoPrompt : String
deriving Repr, DecidableEq

/-- `DEFAULT_SETTINGS` from settings.ts. -/
def DEFAULT_SETTINGS : ForestMiniSettings :=
  { geminiApiKey := ""
    mephistoPrompt := "You are Mephisto, a ruthlessly honest critic and meta-cognitive analyst.\nYour role is to analyze the user's note with brutal honesty and provide insights on:\n- Logic flaws and weak reasoning\n- Unexamined assumptions\n- Missing perspectives\n- Cognitive biases\n- Areas requiring deeper thinking\n\nBe direct, critical, and constructive. Focus on improving the quality of thinking." }

/-- The blob handed back by the host's `loadData()`: a partial object, each
field present or absent (`none` also covers a missing/empty data file). -/
structure PersistedData where
  geminiApiKey : Option String
  mephistoPrompt : Option String
deriving Repr, DecidableEq

/-- `ForestMiniPlugin.loadSettings`:
`Object.assign({}, DEFAULT_SETTINGS, await this.loadData())` — a shallow
per-field merge of the persisted blob over the defaults. -/
def loadSettings (d : PersistedData) : ForestMiniSettings :=
  { geminiApiKey := d.geminiApiKey.getD DEFAULT_SETTINGS.geminiApiKey
    mephistoPrompt := d.mephistoPrompt.getD DEFAULT_SETTINGS.mephistoPrompt }

/-- `ForestMiniPlugin.saveSettings`: `saveData(this.settings)` persists the
complete current settings object, so every field is present in the blob. -/
def saveSettings (s : ForestMiniSettings) : PersistedData :=
  { geminiApiKey := some s.geminiApiKey
    mephistoPrompt := some s.mephistoPrompt }

/-! ## gemini.ts — GeminiClient -/

/-- The two private fields of `GeminiClient`: `genAI` holds the API key the
`GoogleGenerativeAI` handle was built from (or `null`), `model` the selected
model identifier (or `null`). -/
structure GeminiClient where
  genAI : Option String
  model : Option String
deriving Repr, DecidableEq

/-- A freshly constructed `new GeminiClient()`: both fields `null`. -/
def GeminiClient.new : GeminiClient :=
  { genAI := none, model := none }

/-- `GeminiClient.initialize(apiKey)`.  Throws `Error("API key is required")`
when the key is falsy (empty) or whitespace-only; a throw happens before any
assignment, so on `Except.error` the client fields are unchanged (the caller
keeps its previous state).  On success both fields are set. -/
def GeminiClient.initializeClient (_st : GeminiClient) (apiKey : String) :
    Except String GeminiClient :=
  if apiKey = "" ∨ jsTrim apiKey = "" then
    .error "API key is required"
  else
    .ok { genAI := some apiKey, model := some "gemini-1.5-flash" }

/-- `GeminiClient.isInitialized()`: `this.model !== null`. -/
def GeminiClient.isInitialized (st : GeminiClient) : Bool :=
  st.model.isSome

/-- One provider call (`model.generateContent` / `result.response` /
`response.text()` chain): it resolves with a text payload, rejects with an
`Error` carrying a message, or throws a non-`Error` value. -/
inductive ProviderOutcome where
  | success (text : String)
  | failure (msg : String)
  | nonError
deriving Repr

/-- A provider: what the network call returns for each prompt sent. -/
def Provider := String → ProviderOutcome

/-- What one `analyzeNote` call produced: the returned text or thrown error
message, the prompts actually sent over the network (in order), and the
client fields after the call. -/
structure AnalyzeOutput where
  result : Except String String
  sentPrompts : List String
  finalState : GeminiClient
deriving Repr

/-- The fixed separator and instruction header of `analyzeNote`:
`` `${systemPrompt}\n\n---\n\nAnalyze the following note:\n\n${noteContent}` ``. -/
def fullPromptOf (systemPrompt noteContent : String) : String :=
  systemPrompt ++ "\n\n---\n\nAnalyze the following note:\n\n" ++ noteContent

/-- `GeminiClient.analyzeNote(systemPrompt, noteContent)`.  Guards: not
initialized, empty note.  The try block issues one provider call and throws
`Error("Empty response from Gemini API")` on a falsy payload; the catch block
maps any `Error` whose message includes `API_KEY_INVALID` or `QUOTA_EXCEEDED`
to the friendly messages, wraps any other `Error` as
`Analysis failed: <msg>`, and maps a non-`Error` throw to the unknown-error
message.  The method never assigns `this.genAI` or `this.model`. -/
def GeminiClient.analyzeNote (st : GeminiClient) (provider : Provider)
    (systemPrompt noteContent : String) : AnalyzeOutput :=
  if st.model.isNone then
    { result := .error "Gemini client not initialized. Please set your API key in settings."
      sentPrompts := [], finalState := st }
  else if noteContent = "" ∨ jsTrim noteContent = "" then
    { result := .error "Note content is empty", sentPrompts := [], finalState := st }
  else
    let fullPrompt := fullPromptOf systemPrompt noteContent
    -- body of the try block: `Except.error (some m)` is a thrown `Error m`,
    -- `Except.error none` a thrown non-`Error` value
    let tryBody : Except (Option String) String :=
      match provider fullPrompt with
      | .success text => if text = "" then .error (some "Empty response from Gemini API") else .ok text
      | .failure msg => .error (some msg)
      | .nonError => .error none
    match tryBody with
    | .ok text =>
        { result := .ok text, sentPrompts := [fullPrompt], finalState := st }
    | .error (some msg) =>
        if jsIncludes msg "API_KEY_INVALID" then
          { result := .error "Invalid API key. Please check your settings."
            sentPrompts := [fullPrompt], finalState := st }
        else if jsIncludes msg "QUOTA_EXCEEDED" then
          { result := .error "API quota exceeded. Please try again later."
            sentPrompts := [fullPrompt], finalState := st }
        else
          { result := .error ("Analysis failed: " ++ msg)
            sentPrompts := [fullPrompt], finalState := st }
    | .error none =>
        { result := .error "Unknown error occurred during analysis"
          sentPrompts := [fullPrompt], finalState := st }

/-! ## LensView.ts — the Result Panel

`this.contentEl` is modelled as the list of child elements, in document
order.  `contentEl.empty()` removes every child; `contentEl.createEl(...)`
appends one child.  Each child is tagged with the element the source
creates. -/

/-- One child element of the panel's content container, as each `show*`
method creates it. -/
inductive Block where
  | welcomeMsg (text : String)
  | loadingIndicator (text : String)
  | timestampLabel (text : String)
  | markdownResult (text : String)
  | errorLabel (text : String)
  | errorMessage (text : String)
deriving Repr, DecidableEq

/-- `contentEl.empty()`. -/
def domEmpty (_c : List Block) : List Block := []

/-- `contentEl.createEl(...)`: append one child. -/
def domCreateEl (c : List Block) (b : Block) : List Block := c ++ [b]

/-- `LensView.showWelcomeMessage()`. -/
def showWelcomeMessage (c : List Block) : List Block :=
  domCreateEl (domEmpty c)
    (.welcomeMsg "Select a note and use \"Analyze with Mephisto\" command to see analysis results here.")

/-- `LensView.showLoading()`. -/
def showLoading (c : List Block) : List Block :=
  domCreateEl (domEmpty c) (.loadingIndicator "🤔 Mephisto is analyzing...")

/-- `LensView.showAnalysis(analysisText)`; `time` stands for
`new Date().toLocaleString()` at display time, `analysisText` is handed to
the host's markdown renderer. -/
def showAnalysis (time analysisText : String) (c : List Block) : List Block :=
  domCreateEl
    (domCreateEl (domEmpty c) (.timestampLabel ("Analysis: " ++ time)))
    (.markdownResult analysisText)

/-- `LensView.showError(errorMessage)`. -/
def showError (errorMessage : String) (c : List Block) : List Block :=
  domCreateEl (domCreateEl (domEmpty c) (.errorLabel "⚠️ Error")) (.errorMessage errorMessage)

/-- One invocation of a panel operation, with its arguments. -/
inductive LensOp where
  | welcome
  | loading
  | analysis (time analysisText : String)
  | error (errorMessage : String)
deriving Repr, DecidableEq

/-- Run one panel operation on the current content. -/
def applyLensOp (c : List Block) (op : LensOp) : List Block :=
  match op with
  | .welcome => showWelcomeMessage c
  | .loading => showLoading c
  | .analysis t s => showAnalysis t s c
  | .error m => showError m c

/-- The rendering an operation leaves behind (its content on an empty
container). -/
def renderOf (op : LensOp) : List Block :=
  applyLensOp [] op

/-- The Panel State variant of §3 of the spec. -/
inductive PanelVariant where
  | welcome
  | loading
  | result
  | error
deriving Repr, DecidableEq

/-- Which variant a child element belongs to. -/
def blockVariant : Block → PanelVariant
  | .welcomeMsg _ => .welcome
  | .loadingIndicator _ => .loading
  | .timestampLabel _ => .result
  | .markdownResult _ => .result
  | .errorLabel _ => .error
  | .errorMessage _ => .error

/-- Which variant an operation renders. -/
def lensOpVariant : LensOp → PanelVariant
  | .welcome => .welcome
  | .loading => .loading
  | .analysis _ _ => .result
  | .error _ => .error

/-! ## main.ts — ForestMiniPlugin.analyzeCurrentNote (the Orchestrator) -/

/-- Panel renderings the orchestrator pushes, in order (the `LensOp`s it
invokes on the lens view). -/
abbrev PanelTrace := List LensOp

/-- The environment one command invocation runs in: current settings, the
plugin's client, whether the lens view could be obtained after
`activateLensView()`, the active editor's text, the provider's behaviour,
and the display-time timestamp. -/
structure PluginEnv where
  settings : ForestMiniSettings
  client : GeminiClient
  lensViewAvailable : Bool
  editorText : String
  provider : Provider
  now : String

/-- Everything one run of the `analyze-with-mephisto` command did:
`Notice` messages in order, panel operations in order, prompts sent over
the network in order, and the plugin's client afterwards. -/
structure CommandOutcome where
  notices : List String
  panelOps : PanelTrace
  sentPrompts : List String
  client : GeminiClient

/-- `ForestMiniPlugin.analyzeCurrentNote(editor, view)`, line by line:
empty-key guard, lazy (re)initialization (a throw there is caught and only
notified), lens-view lookup, `showLoading` plus notice, empty-note guard,
the `analyzeNote` call, and the success/catch endings. -/
def analyzeCurrentNote (env : PluginEnv) : CommandOutcome :=
  if env.settings.geminiApiKey = "" then
    { notices := ["Please set your Gemini API key in settings first."]
      panelOps := [], sentPrompts := [], client := env.client }
  else
    match
      (if env.client.isInitialized then .ok env.client
       else env.client.initializeClient env.settings.geminiApiKey :
        Except String GeminiClient) with
    | .error _ =>
        { notices := ["Failed to initialize Gemini client. Check your API key."]
          panelOps := [], sentPrompts := [], client := env.client }
    | .ok client =>
        if !env.lensViewAvailable then
          { notices := ["Failed to open Lens View"]
            panelOps := [], sentPrompts := [], client := client }
        else
          let noteContent := env.editorText
          if noteContent = "" ∨ jsTrim noteContent = "" then
            { notices := ["Analyzing with Mephisto...", "Current note is empty"]
              panelOps := [.loading, .error "Current note is empty"]
              sentPrompts := [], client := client }
          else
            let out := client.analyzeNote env.provider env.settings.mephistoPrompt noteContent
            match out.result with
            | .ok text =>
                { notices := ["Analyzing with Mephisto...", "Analysis complete!"]
                  panelOps := [.loading, .analysis env.now text]
                  sentPrompts := out.sentPrompts, client := out.finalState }
            | .error msg =>
                { notices := ["Analyzing with Mephisto...", "Analysis failed: " ++ msg]
                  panelOps := [.loading, .error msg]
                  sentPrompts := out.sentPrompts, client := out.finalState }

/-! ## Theorems for the claims -/

/-- C6: for every systemPrompt and noteContent, `analyzeNote` on a client
that has never been initialized (`new GeminiClient()`) fails with the
not-initialized error and sends nothing over the network. -/
theorem analyzeNote_uninitialized_fails (provider : Provider)
    (systemPrompt noteContent : String) :
    (GeminiClient.new.analyzeNote provider systemPrompt noteContent).result
        = .error "Gemini client not initialized. Please set your API key in settings."
    ∧ (GeminiClient.new.analyzeNote provider systemPrompt noteContent).sentPrompts = [] :=
  ⟨rfl, rfl⟩

/-- C7: `initialize` fails with the configuration error on the empty string
and on every whitespace-only key, leaving a fresh client uninitialized (a
throw precedes every field assignment); on a non-whitespace key it succeeds
and `isInitialized()` then returns true. -/
theorem initializeClient_spec (key : String) :
    GeminiClient.new.initializeClient "" = .error "API key is required"
    ∧ (jsTrim key = "" → GeminiClient.new.initializeClient key = .error "API key is required")
    ∧ GeminiClient.new.isInitialized = false
    ∧ (jsTrim key ≠ "" →
        ∃ st, GeminiClient.new.initializeClient key = .ok st ∧ st.isInitialized = true) := by
  refine ⟨rfl, fun h => ?_, rfl, fun h => ?_⟩
  · simp [GeminiClient.initializeClient, h]
  · have hcond : ¬(key = "" ∨ jsTrim key = "") := by
      rintro (rfl | hw)
      · exact h rfl
      · exact h hw
    refine ⟨⟨some key, some "gemini-1.5-flash"⟩, ?_, rfl⟩
    rw [GeminiClient.initializeClient, if_neg hcond]

/-- Witness for C7 at the concrete keys of P2. -/
theorem initializeClient_spec_witness :
    GeminiClient.new.initializeClient "   " = .error "API key is required"
    ∧ ∃ st, GeminiClient.new.initializeClient "validkey" = .ok st
        ∧ st.isInitialized = true :=
  ⟨(initializeClient_spec "   ").2.1 (by decide),
   (initializeClient_spec "validkey").2.2.2 (by decide)⟩

/-- C9: a failing `analyzeNote` call leaves the client's fields (`genAI`,
`model`) unchanged, so `isInitialized()` answers the same before and after
the failed call. -/
theorem analyzeNote_error_atomic (st : GeminiClient) (provider : Provider)
    (systemPrompt noteContent msg : String)
    (h : (st.analyzeNote provider systemPrompt noteContent).result = .error msg) :
    (st.analyzeNote provider systemPrompt noteContent).finalState = st
    ∧ (st.analyzeNote provider systemPrompt noteContent).finalState.isInitialized
        = st.isInitialized := by
  have hstate : (st.analyzeNote provider systemPrompt noteContent).finalState = st := by
    unfold GeminiClient.analyzeNote
    split
    · rfl
    split
    · rfl
    cases hp : provider (fullPromptOf systemPrompt noteContent) with
    | success text => by_cases ht : text = "" <;> simp [hp, ht] <;> rfl
    | failure m =>
        by_cases h1 : jsIncludes m "API_KEY_INVALID" <;>
          by_cases h2 : jsIncludes m "QUOTA_EXCEEDED" <;> simp [hp, h1, h2]
    | nonError => simp [hp]
  exact ⟨hstate, by rw [hstate]⟩

/-- Witness for C9: the not-initialized failure leaves a fresh client as it
was. -/
theorem analyzeNote_error_atomic_witness :
    (GeminiClient.new.analyzeNote (fun _ => .success "x") "p" "n").finalState
        = GeminiClient.new
    ∧ (GeminiClient.new.analyzeNote (fun _ => .success "x") "p" "n").finalState.isInitialized
        = GeminiClient.new.isInitialized :=
  analyzeNote_error_atomic GeminiClient.new (fun _ => .success "x") "p" "n"
    "Gemini client not initialized. Please set your API key in settings." rfl

/-- C4: persisting a full settings object and re-loading returns it
unchanged, and loading a partial blob falls back to the hard-coded default
for each absent field and to the stored value for each present field
(shallow per-field merge over defaults). -/
theorem loadSettings_merge (cfg : ForestMiniSettings) (d : PersistedData) :
    loadSettings (saveSettings cfg) = cfg
    ∧ (d.geminiApiKey = none →
        (loadSettings d).geminiApiKey = DEFAULT_SETTINGS.geminiApiKey)
    ∧ (d.mephistoPrompt = none →
        (loadSettings d).mephistoPrompt = DEFAULT_SETTINGS.mephistoPrompt)
    ∧ (∀ k, d.geminiApiKey = some k → (loadSettings d).geminiApiKey = k)
    ∧ (∀ p, d.mephistoPrompt = some p → (loadSettings d).mephistoPrompt = p) := by
  refine ⟨rfl, fun h => ?_, fun h => ?_, fun k h => ?_, fun p h => ?_⟩ <;>
    simp [loadSettings, h]

/-- Witness for C4: a concrete round trip and a concrete partial blob. -/
theorem loadSettings_merge_witness :
    loadSettings (saveSettings ⟨"k", "p"⟩) = (⟨"k", "p"⟩ : ForestMiniSettings)
    ∧ (loadSettings ⟨none, some "q"⟩).geminiApiKey = DEFAULT_SETTINGS.geminiApiKey
    ∧ (loadSettings ⟨none, some "q"⟩).mephistoPrompt = "q" :=
  ⟨(loadSettings_merge ⟨"k", "p"⟩ ⟨none, some "q"⟩).1,
   (loadSettings_merge ⟨"k", "p"⟩ ⟨none, some "q"⟩).2.1 rfl,
   (loadSettings_merge ⟨"k", "p"⟩ ⟨none, some "q"⟩).2.2.2.2 "q" rfl⟩

/-- C8: every panel operation empties the container before rendering, so its
result does not depend on the prior content, every rendered child belongs to
the operation's own Panel State variant, and after any sequence of
operations the container holds exactly the last operation's rendering. -/
theorem lensView_one_variant (c : List Block) (ops : List LensOp) (op : LensOp) :
    applyLensOp c op = renderOf op
    ∧ (∀ b ∈ renderOf op, blockVariant b = lensOpVariant op)
    ∧ List.foldl applyLensOp c (ops ++ [op]) = renderOf op := by
  have hrep : ∀ x : List Block, applyLensOp x op = renderOf op := by
    intro x
    cases op <;> rfl
  refine ⟨hrep c, ?_, ?_⟩
  · cases op <;>
      simp [renderOf, applyLensOp, showWelcomeMessage, showLoading, showAnalysis,
        showError, domCreateEl, domEmpty, blockVariant, lensOpVariant]
  · rw [List.foldl_append]
    exact hrep _

/-- Witness for C8 at a concrete prior content, history and operation. -/
theorem lensView_one_variant_witness :
    List.foldl applyLensOp [Block.welcomeMsg "w"]
        ([LensOp.welcome, LensOp.loading] ++ [LensOp.error "boom"])
      = renderOf (LensOp.error "boom")
    ∧ blockVariant (Block.errorMessage "boom") = lensOpVariant (LensOp.error "boom") :=
  ⟨(lensView_one_variant [Block.welcomeMsg "w"] [LensOp.welcome, LensOp.loading]
      (LensOp.error "boom")).2.2,
   (lensView_one_variant [Block.welcomeMsg "w"] [LensOp.welcome, LensOp.loading]
      (LensOp.error "boom")).2.1 (Block.errorMessage "boom") (by decide)⟩

/-- C3: on an initialized client with a non-blank note, `analyzeNote` sends
exactly one prompt over the network, and that prompt is exactly the
systemPrompt, the fixed separator, the instruction header and the note. -/
theorem analyzeNote_one_prompt (st : GeminiClient) (provider : Provider)
    (systemPrompt noteContent : String)
    (hinit : st.isInitialized = true) (hnc : jsTrim noteContent ≠ "") :
    (st.analyzeNote provider systemPrompt noteContent).sentPrompts
      = [fullPromptOf systemPrompt noteContent] := by
  have hmodel : st.model.isNone = false := by
    rcases st with ⟨g, m⟩
    cases m
    · simp [GeminiClient.isInitialized] at hinit
    · rfl
  have hguard : ¬(noteContent = "" ∨ jsTrim noteContent = "") := by
    rintro (rfl | hw)
    · exact hnc (by decide)
    · exact hnc hw
  cases hp : provider (fullPromptOf systemPrompt noteContent) with
  | success text =>
      by_cases ht : text = "" <;>
        simp [GeminiClient.analyzeNote, hmodel, hguard, hp, ht] <;> rfl
  | failure m =>
      by_cases h1 : jsIncludes m "API_KEY_INVALID" <;>
        by_cases h2 : jsIncludes m "QUOTA_EXCEEDED" <;>
          simp [GeminiClient.analyzeNote, hmodel, hguard, hp, h1, h2]
  | nonError => simp [GeminiClient.analyzeNote, hmodel, hguard, hp]

/-- Witness for C3 at a concrete initialized client and note. -/
theorem analyzeNote_one_prompt_witness :
    ((GeminiClient.mk (some "k") (some "gemini-1.5-flash")).analyzeNote
        (fun _ => .success "ok") "sys" "note").sentPrompts
      = [fullPromptOf "sys" "note"] :=
  analyzeNote_one_prompt _ _ "sys" "note" rfl (by decide)

/-- C1 counterexample: on an initialized client with note "hello", a
provider whose payload is empty makes `analyzeNote` fail — but the error
surfaced to the caller is the catch-all wrapping
"Analysis failed: Empty response from Gemini API", not the bare
empty-response error: the throw of `Error("Empty response from Gemini
API")` stands inside the try block and is caught by the method's own catch
block. -/
theorem emptyResponse_is_wrapped_counterexample :
    ((GeminiClient.mk (some "k") (some "gemini-1.5-flash")).analyzeNote
        (fun _ => .success "") "p" "hello").result
      = .error "Analysis failed: Empty response from Gemini API"
    ∧ ((GeminiClient.mk (some "k") (some "gemini-1.5-flash")).analyzeNote
        (fun _ => .success "") "p" "hello").result
      ≠ .error "Empty response from Gemini API" := by
  refine ⟨rfl, ?_⟩
  decide

/-- C1 amended: on an initialized client with a non-blank note, an empty
provider payload makes `analyzeNote` fail with the empty-response message
wrapped by the catch-all: "Analysis failed: Empty response from Gemini
API". -/
theorem emptyResponse_wrapped (st : GeminiClient) (provider : Provider)
    (systemPrompt noteContent : String)
    (hinit : st.isInitialized = true) (hnc : jsTrim noteContent ≠ "")
    (hp : provider (fullPromptOf systemPrompt noteContent) = .success "") :
    (st.analyzeNote provider systemPrompt noteContent).result
      = .error "Analysis failed: Empty response from Gemini API" := by
  have hmodel : st.model.isNone = false := by
    rcases st with ⟨g, m⟩
    cases m
    · simp [GeminiClient.isInitialized] at hinit
    · rfl
  have hguard : ¬(noteContent = "" ∨ jsTrim noteContent = "") := by
    rintro (rfl | hw)
    · exact hnc (by decide)
    · exact hnc hw
  simp [GeminiClient.analyzeNote, hmodel, hguard, hp]
  rfl

/-- Witness for the amended C1. -/
theorem emptyResponse_wrapped_witness :
    ((GeminiClient.mk (some "k") (some "gemini-1.5-flash")).analyzeNote
        (fun _ => .success "") "p" "hello").result
      = .error "Analysis failed: Empty response from Gemini API" :=
  emptyResponse_wrapped _ _ "p" "hello" rfl (by decide) rfl

/-- C5: with a set (non-whitespace) API key, an available lens view and an
empty or whitespace-only document, one run of the analyze command drives
the panel through Loading into Error("Current note is empty"), emits that
notification, and sends nothing over the network. -/
theorem emptyNote_aborts (env : PluginEnv)
    (hkey : jsTrim env.settings.geminiApiKey ≠ "")
    (hlens : env.lensViewAvailable = true)
    (hempty : jsTrim env.editorText = "") :
    (analyzeCurrentNote env).panelOps = [.loading, .error "Current note is empty"]
    ∧ "Current note is empty" ∈ (analyzeCurrentNote env).notices
    ∧ (analyzeCurrentNote env).sentPrompts = [] := by
  have hne : env.settings.geminiApiKey ≠ "" := fun h => hkey (by rw [h]; decide)
  have hcond : ¬(env.settings.geminiApiKey = "" ∨ jsTrim env.settings.geminiApiKey = "") := by
    rintro (h | h)
    exacts [hne h, hkey h]
  have hstep :
      (if env.client.isInitialized then .ok env.client
       else env.client.initializeClient env.settings.geminiApiKey :
        Except String GeminiClient)
        = .ok (if env.client.isInitialized then env.client
               else ⟨some env.settings.geminiApiKey, some "gemini-1.5-flash"⟩) := by
    by_cases hi : env.client.isInitialized <;>
      simp [hi, GeminiClient.initializeClient, hcond]
  unfold analyzeCurrentNote
  rw [if_neg hne, hstep]
  simp [hlens, hempty]

/-- Witness for C5: scenario B's document "  \n  " on a fresh client. -/
theorem emptyNote_aborts_witness :
    (analyzeCurrentNote
        ⟨⟨"k", "p"⟩, GeminiClient.new, true, "  \n  ", fun _ => .success "x", "t"⟩).panelOps
      = [.loading, .error "Current note is empty"]
    ∧ "Current note is empty" ∈
        (analyzeCurrentNote
          ⟨⟨"k", "p"⟩, GeminiClient.new, true, "  \n  ", fun _ => .success "x", "t"⟩).notices :=
  ⟨(emptyNote_aborts _ (by decide) rfl (by decide)).1,
   (emptyNote_aborts _ (by decide) rfl (by decide)).2.1⟩

/-- C10: with a stored key that is non-empty but whitespace-only and an
uninitialized client, the command passes the empty-key guard, then aborts
at the lazy initialization with the notice "Failed to initialize Gemini
client. Check your API key." — not the missing-key notice — leaving the
panel untouched, sending nothing, and leaving the client as it was. -/
theorem whitespaceKey_initNotice (env : PluginEnv)
    (hne : env.settings.geminiApiKey ≠ "")
    (hws : jsTrim env.settings.geminiApiKey = "")
    (huninit : env.client.isInitialized = false) :
    (analyzeCurrentNote env).notices
        = ["Failed to initialize Gemini client. Check your API key."]
    ∧ (analyzeCurrentNote env).panelOps = []
    ∧ (analyzeCurrentNote env).sentPrompts = []
    ∧ (analyzeCurrentNote env).client = env.client
    ∧ "Please set your Gemini API key in settings first."
        ∉ (analyzeCurrentNote env).notices := by
  unfold analyzeCurrentNote
  rw [if_neg hne]
  simp [huninit, GeminiClient.initializeClient, hws]

/-- Witness for C10 at the key " " and a fresh client. -/
theorem whitespaceKey_initNotice_witness :
    (analyzeCurrentNote
        ⟨⟨" ", "p"⟩, GeminiClient.new, true, "note", fun _ => .success "x", "t"⟩).notices
      = ["Failed to initialize Gemini client. Check your API key."]
    ∧ (analyzeCurrentNote
        ⟨⟨" ", "p"⟩, GeminiClient.new, true, "note", fun _ => .success "x", "t"⟩).panelOps
      = [] :=
  ⟨(whitespaceKey_initNotice
      ⟨⟨" ", "p"⟩, GeminiClient.new, true, "note", fun _ => .success "x", "t"⟩
      (by decide) (by decide) rfl).1,
   (whitespaceKey_initNotice
      ⟨⟨" ", "p"⟩, GeminiClient.new, true, "note", fun _ => .success "x", "t"⟩
      (by decide) (by decide) rfl).2.1⟩

/-- A concrete invocation whose provider rejects with a credential-invalid
signal (an `Error` whose message includes `API_KEY_INVALID`). -/
def credentialFailureEnv : PluginEnv :=
  { settings := ⟨"k", "p"⟩
    client := ⟨some "k", some "gemini-1.5-flash"⟩
    lensViewAvailable := true
    editorText := "hello"
    provider := fun _ => .failure "API_KEY_INVALID"
    now := "t" }

/-- C2 counterexample: on a credential-invalid rejection the panel does show
Error("Invalid API key. Please check your settings."), but no notification
carries that same message — the notification issued is
"Analysis failed: Invalid API key. Please check your settings." (the catch
block prefixes the message). -/
theorem catchNotice_not_same_message_counterexample :
    (analyzeCurrentNote credentialFailureEnv).panelOps
        = [.loading, .error "Invalid API key. Please check your settings."]
    ∧ (analyzeCurrentNote credentialFailureEnv).notices
        = ["Analyzing with Mephisto...",
           "Analysis failed: Invalid API key. Please check your settings."]
    ∧ "Invalid API key. Please check your settings."
        ∉ (analyzeCurrentNote credentialFailureEnv).notices := by
  refine ⟨rfl, rfl, ?_⟩
  decide

/-- C2 amended: every failure of the analysis call caught by the
orchestrator produces exactly two user-visible effects after the Loading
state: the panel renders the error state with the exact message, and one
notification whose text is "Analysis failed: " prefixed to that message
(so the notification contains, but does not equal, the message). -/
theorem catch_two_effects (env : PluginEnv) (msg : String)
    (hkey : jsTrim env.settings.geminiApiKey ≠ "")
    (hinit : env.client.isInitialized = true)
    (hlens : env.lensViewAvailable = true)
    (hnonempty : jsTrim env.editorText ≠ "")
    (hfail :
      (env.client.analyzeNote env.provider env.settings.mephistoPrompt env.editorText).result
        = .error msg) :
    (analyzeCurrentNote env).notices
        = ["Analyzing with Mephisto...", "Analysis failed: " ++ msg]
    ∧ (analyzeCurrentNote env).panelOps = [.loading, .error msg] := by
  have hne : env.settings.geminiApiKey ≠ "" := fun h => hkey (by rw [h]; decide)
  have hguard : ¬(env.editorText = "" ∨ jsTrim env.editorText = "") := by
    rintro (he | hw)
    · exact hnonempty (by rw [he]; decide)
    · exact hnonempty hw
  unfold analyzeCurrentNote
  rw [if_neg hne]
  simp [hinit, hlens, hguard, hfail]

/-- Witness for the amended C2 at the credential-invalid run. -/
theorem catch_two_effects_witness :
    (analyzeCurrentNote credentialFailureEnv).notices
        = ["Analyzing with Mephisto...",
           "Analysis failed: " ++ "Invalid API key. Please check your settings."]
    ∧ (analyzeCurrentNote credentialFailureEnv).panelOps
        = [.loading, .error "Invalid API key. Please check your settings."] :=
  catch_two_effects credentialFailureEnv "Invalid API key. Please check your settings."
    (by decide) rfl rfl (by decide) rfl

end ForestMini
